import Mathlib

/-!
# Verification of the lottowins ingestion pipeline

Shallow embedding of the collector subsystem of the `lottowins` repository:

* `GameResultRepository.save_many`
  (`app/repositories/game_result_repository.py`, lines 124-701): the
  deduplication/upsert engine over the `game_results` table;
* the per-state historical crawl loop
  (`jobs/historical_collector.py`, `collect_historical_data`, lines 99-300);
* the shared-connection lifecycle of `GameCollectorService`
  (`app/services/game_collector_service.py`, lines 41-92);
* the multi-state game-name classifier
  (`app/services/game_collector_service.py`, lines 35-39 and 274-279).

Modelling conventions:

* dates, times and ids are `Nat` codes; SQL `NULL` is `Option.none`;
* `numbers` is the serialized string `numbers_json`: the `GameResult`
  constructor (`app/models/game_result.py`) always stores a `str`, so the
  `isinstance(numbers_str, str)` branch of `save_many` (line 313) applies and
  `numbers_json` equals the stored string unchanged;
* the database connection is a pair (committed table, uncommitted view):
  statements act on the view, `connection.commit()` publishes the view,
  `connection.rollback()` restores the committed table.  `lastrowid`
  auto-increment counters survive rollback, as in the real engine;
* the SELECT of game ids at lines 182-185 of `save_many` discards its result
  set and is therefore not modelled; the `game_object` pre-resolution step
  (lines 141-165) runs before the upsert proper, so the model takes records
  whose `game_id` is already resolved (or `None`);
* rows are fetched in table order (insertion order); the Python dict built
  from the fetched rows keeps, for each key, the last row assigned to it.
-/

/-- A `GameResult` value as consumed by `save_many`
(`app/models/game_result.py`): `state_id` is carried but never read by the
upsert engine. -/
structure GameResult where
  game_id : Option Nat
  state_id : Option Nat
  draw_date : Nat
  draw_time : Option Nat
  timezone : Option String
  numbers : String
  jackpot : Option String
  next_draw_date : Option Nat
  next_draw_time : Option Nat
  next_jackpot : Option String
  special_number : Option String
deriving DecidableEq, Repr

/-- One row of the `game_results` table. -/
structure StoredRow where
  id : Nat
  game_id : Nat
  draw_date : Nat
  draw_time : Option Nat
  timezone : Option String
  numbers : String
  jackpot : Option String
  next_draw_date : Option Nat
  next_draw_time : Option Nat
  next_jackpot : Option String
  special_number : Option String
  collected_at : Nat
deriving DecidableEq, Repr

/-- The shared database connection: committed table state, this
connection's uncommitted view of the table, and the auto-increment
counter for `game_results.id`. -/
structure Conn where
  committed : List StoredRow
  view : List StoredRow
  next_id : Nat
deriving DecidableEq, Repr

/-- A fresh connection over an empty `game_results` table. -/
def emptyConn : Conn := ⟨[], [], 0⟩

/-- The result dict of `save_many` (lines 135 and 684-693).  The early
returns omit the `insert_errors` key; the model uses one shape with the
count zero there. -/
structure SaveStats where
  success : Bool
  inserted : Nat
  updated : Nat
  unchanged : Nat
  insert_errors : Nat
  total : Nat
deriving DecidableEq, Repr

/-- Outcome of one `save_many` call: the connection afterwards, the result
dict, and whether `get_pg_connection()` was reached (it is not for an empty
input list, line 134). -/
structure SaveOutcome where
  conn : Conn
  stats : SaveStats
  got_connection : Bool
deriving DecidableEq, Repr

/-- Line 308 (and 214) of `save_many`: `is_multi_state = False` for every
record — the multi-state column was removed, so the engine treats all games
as regular. -/
def save_many_is_multi_state (_gr : GameResult) : Bool := false

/-- Lines 205-224: the WHERE clauses collected for multi-state games.
Guarded by `save_many_is_multi_state`, hence always empty. -/
def multi_state_clauses (game_results : List GameResult) : List (Nat × Nat) :=
  game_results.foldl (fun acc gr =>
    match gr.game_id with
    | none => acc
    | some g => if save_many_is_multi_state gr then acc ++ [(g, gr.draw_date)] else acc) []

/-- The tuple appended to `to_insert` (lines 547-558). -/
structure InsertRow where
  game_id : Nat
  draw_date : Nat
  draw_time : Option Nat
  timezone : Option String
  numbers : String
  jackpot : Option String
  next_draw_date : Option Nat
  next_draw_time : Option Nat
  next_jackpot : Option String
  special_number : Option String
deriving DecidableEq, Repr

/-- The tuple appended to `to_update` (lines 489-498): the seven mutable
columns plus the target row id. -/
structure UpdateRow where
  numbers : String
  timezone : Option String
  jackpot : Option String
  next_draw_date : Option Nat
  next_draw_time : Option Nat
  next_jackpot : Option String
  special_number : Option String
  row_id : Nat
deriving DecidableEq, Repr

def insertRowOf (g : Nat) (gr : GameResult) : InsertRow :=
  ⟨g, gr.draw_date, gr.draw_time, gr.timezone, gr.numbers, gr.jackpot,
    gr.next_draw_date, gr.next_draw_time, gr.next_jackpot, gr.special_number⟩

def updateRowOf (gr : GameResult) (rid : Nat) : UpdateRow :=
  ⟨gr.numbers, gr.timezone, gr.jackpot, gr.next_draw_date, gr.next_draw_time,
    gr.next_jackpot, gr.special_number, rid⟩

/-- The key space of `existing_regular_results`: `(game_id, draw_date)`
primary keys are encoded with third component `none`, `(game_id, draw_date,
draw_time)` time keys with `some t` (time keys are only created for non-null
times, so the encoding is faithful to the Python dict). -/
abbrev RegKey := Nat × Nat × Option Nat

/-- Python dict lookup over an assoc list where later insertions win. -/
def dictFind (d : List (RegKey × StoredRow)) (k : RegKey) : Option StoredRow :=
  (d.reverse.find? (fun p => p.1 == k)).map (fun p => p.2)

/-- Lines 239-257, loop body: index one fetched row under its
`(game_id, draw_date)` primary key and, when `draw_time` is non-null, also
under its time key. -/
def lookupEntriesStep (d : List (RegKey × StoredRow)) (row : StoredRow) :
    List (RegKey × StoredRow) :=
  let d := d ++ [((row.game_id, row.draw_date, none), row)]
  match row.draw_time with
  | some t => d ++ [((row.game_id, row.draw_date, some t), row)]
  | none => d

/-- Lines 237-257: build `existing_regular_results` from the fetched rows.
(The source stores a field dict; the model stores the row itself, which
carries the same data.) -/
def buildRegularLookup (rows : List StoredRow) : List (RegKey × StoredRow) :=
  rows.foldl lookupEntriesStep []

/-- Lines 227-235: the batched SELECT fetching every existing row whose
`(game_id, draw_date)` appears in the batch (clauses are only built for
records with a resolved `game_id`). -/
def matchesBatch (game_results : List GameResult) (row : StoredRow) : Bool :=
  game_results.any (fun gr =>
    gr.game_id == some row.game_id && gr.draw_date == row.draw_date)

def fetchRegular (view : List StoredRow) (game_results : List GameResult) :
    List StoredRow :=
  view.filter (matchesBatch game_results)

/-- Lines 456-485: comparison of the seven mutable fields between an
existing row and the incoming record (`needs_update`). -/
def fieldsDiffer (ex : StoredRow) (gr : GameResult) : Bool :=
  ex.numbers != gr.numbers ||
  ex.jackpot != gr.jackpot ||
  ex.next_draw_date != gr.next_draw_date ||
  ex.next_draw_time != gr.next_draw_time ||
  ex.next_jackpot != gr.next_jackpot ||
  ex.timezone != gr.timezone ||
  ex.special_number != gr.special_number

/-- Lines 643-649: the same seven-field comparison used in the
duplicate-insert recovery path, against the queued insert tuple. -/
def insFieldsDiffer (ex : StoredRow) (it : InsertRow) : Bool :=
  ex.numbers != it.numbers ||
  ex.timezone != it.timezone ||
  ex.jackpot != it.jackpot ||
  ex.next_draw_date != it.next_draw_date ||
  ex.next_draw_time != it.next_draw_time ||
  ex.next_jackpot != it.next_jackpot ||
  ex.special_number != it.special_number

/-- Accumulator of the decision loop (lines 190-195). -/
structure Pending where
  to_insert : List InsertRow
  to_update : List UpdateRow
  unchanged : Nat
deriving DecidableEq, Repr

/-- One iteration of the decision loop (lines 302-562) for a single record.
`lookup` is `existing_regular_results` (built once before the loop) and
`view` is the connection's table view used by the direct duplicate
re-check (lines 516-562); no writes happen during the decision phase, so
the view is the one `save_many` started with. -/
def decideRecord (lookup : List (RegKey × StoredRow)) (view : List StoredRow)
    (acc : Pending) (gr : GameResult) : Pending :=
  match gr.game_id with
  | none => acc
  | some g =>
    if save_many_is_multi_state gr then
      -- Lines 318-435: the multi-state branch.  It is unreachable (the guard
      -- is the constant false) and `existing_multi_results` is always empty
      -- (its clauses are built under the same guard), so control would fall
      -- through to the insert at lines 423-435.
      { acc with to_insert := acc.to_insert ++ [insertRowOf g gr] }
    else
      let primary : RegKey := (g, gr.draw_date, none)
      let timeKey : RegKey :=
        match gr.draw_time with
        | some t => (g, gr.draw_date, some t)
        | none => primary
      let existing :=
        match dictFind lookup timeKey with
        | some e => some e
        | none => dictFind lookup primary
      match existing with
      | some ex =>
        if fieldsDiffer ex gr then
          { acc with to_update := acc.to_update ++ [updateRowOf gr ex.id] }
        else
          { acc with unchanged := acc.unchanged + 1 }
      | none =>
        -- Lines 516-562: direct re-check against the table before queueing
        -- the insert (`draw_time = %s` when present, `draw_time IS NULL`
        -- otherwise).
        match view.find? (fun row =>
            row.game_id == g && row.draw_date == gr.draw_date &&
            row.draw_time == gr.draw_time) with
        | some _ => { acc with unchanged := acc.unchanged + 1 }
        | none => { acc with to_insert := acc.to_insert ++ [insertRowOf g gr] }

/-- Lines 572-584: the single batched `executemany` UPDATE.  Each tuple sets
the seven mutable columns and `collected_at = CURRENT_TIMESTAMP` on the row
with the given id.  No commit is issued here. -/
def applyUpdate (now : Nat) (rows : List StoredRow) (u : UpdateRow) :
    List StoredRow :=
  rows.map (fun row =>
    if row.id == u.row_id then
      { row with
        numbers := u.numbers, timezone := u.timezone, jackpot := u.jackpot,
        next_draw_date := u.next_draw_date, next_draw_time := u.next_draw_time,
        next_jackpot := u.next_jackpot, special_number := u.special_number,
        collected_at := now }
    else row)

def execUpdates (now : Nat) (conn : Conn) (us : List UpdateRow) : Conn × Nat :=
  if us.isEmpty then (conn, 0)
  else ({ conn with view := us.foldl (applyUpdate now) conn.view }, us.length)

/-- The row predicate shared by the duplicate-key check and the conflict
re-read (lines 617-630): same `game_id`, same `draw_date`, and
`draw_time = t` when the tuple has one or `draw_time IS NULL` otherwise. -/
def rowMatchesItem (it : InsertRow) (row : StoredRow) : Bool :=
  row.game_id == it.game_id && row.draw_date == it.draw_date &&
    row.draw_time == it.draw_time

/-- Modelled from the spec: the `game_results` table schema (its migrations
are not under `src/`) enforces the §3 identity invariant — at most one row
per `(gameId, drawDate, drawTime-or-null)` — so an INSERT raises a
duplicate-key error exactly when a row with the same triple is visible. -/
def keyConflict (view : List StoredRow) (it : InsertRow) : Bool :=
  view.any (rowMatchesItem it)

def rowOfInsert (it : InsertRow) (rid now : Nat) : StoredRow :=
  ⟨rid, it.game_id, it.draw_date, it.draw_time, it.timezone, it.numbers,
    it.jackpot, it.next_draw_date, it.next_draw_time, it.next_jackpot,
    it.special_number, now⟩

def updateOfInsert (it : InsertRow) (rid : Nat) : UpdateRow :=
  ⟨it.numbers, it.timezone, it.jackpot, it.next_draw_date, it.next_draw_time,
    it.next_jackpot, it.special_number, rid⟩

/-- State threaded through the execution phase (lines 564-680). -/
structure ExecState where
  conn : Conn
  inserted : Nat
  updated : Nat
  unchanged : Nat
  insert_errors : Nat
deriving DecidableEq, Repr

/-- Lines 592-680: execute one queued insert.  On success the row is
committed individually (line 602).  On a duplicate-key failure the
connection is rolled back and the now-existing row is re-read by
`(game_id, draw_date, draw_time-or-null)` (lines 606-630); if any of the
seven mutable fields differs the conflict becomes a committed update
(lines 652-669), otherwise it is counted unchanged (lines 670-672).  When
the re-read finds no row, the source falls through counting nothing. -/
def execInsert (now : Nat) (s : ExecState) (it : InsertRow) : ExecState :=
  if keyConflict s.conn.view it then
    let conn := { s.conn with view := s.conn.committed }
    match conn.view.find? (rowMatchesItem it) with
    | some ex =>
      if insFieldsDiffer ex it then
        let view := applyUpdate now conn.view (updateOfInsert it ex.id)
        { s with conn := { conn with view := view, committed := view },
                 updated := s.updated + 1 }
      else
        { s with conn := conn, unchanged := s.unchanged + 1 }
    | none => { s with conn := conn }
  else
    let view := s.conn.view ++ [rowOfInsert it s.conn.next_id now]
    { s with
      conn := { committed := view, view := view, next_id := s.conn.next_id + 1 },
      inserted := s.inserted + 1 }

/-- `GameResultRepository.save_many` (lines 124-701), as a pure function of
the connection state, the current timestamp and the batch. -/
def save_many (conn : Conn) (now : Nat) (game_results : List GameResult) :
    SaveOutcome :=
  if game_results.isEmpty then
    -- Lines 134-135: early return before get_pg_connection().
    { conn := conn,
      stats := { success := true, inserted := 0, updated := 0, unchanged := 0,
                 insert_errors := 0, total := 0 },
      got_connection := false }
  else
    -- Line 137: get_pg_connection().
    let game_ids := game_results.filterMap (fun gr => gr.game_id)
    if game_ids.isEmpty then
      -- Lines 174-175: no valid game ids.
      { conn := conn,
        stats := { success := true, inserted := 0, updated := 0, unchanged := 0,
                   insert_errors := 0, total := 0 },
        got_connection := true }
    else
      let lookup := buildRegularLookup (fetchRegular conn.view game_results)
      let pending := game_results.foldl (decideRecord lookup conn.view)
        ⟨[], [], 0⟩
      let (conn1, updated0) := execUpdates now conn pending.to_update
      let es := pending.to_insert.foldl (execInsert now)
        ⟨conn1, 0, updated0, pending.unchanged, 0⟩
      { conn := es.conn,
        stats := { success := true, inserted := es.inserted,
                   updated := es.updated, unchanged := es.unchanged,
                   insert_errors := es.insert_errors,
                   total := es.inserted + es.updated + es.unchanged },
        got_connection := true }

/-! ## The historical crawl loop (`jobs/historical_collector.py`) -/

/-- Configuration constants, lines 29-34. -/
def MAX_DAYS_BACK : Nat := 3
def MAX_EMPTY_DAYS : Nat := 3
def MAX_RETRIES : Nat := 3

/-- Classification of one collection outcome for a `(state, date)` pair, as
the per-state loop (lines 132-293) distinguishes them:
* `ok n`: `result["success"]` with `games_collected = n`;
* `errSkip`: failure whose message contains one of `SKIP_ERROR_MESSAGES`
  (server errors), or an exception whose text does (lines 238-244, 275-281);
* `errNoGames`: failure with `"No games found"` in the message (line 246);
* `errNotFound`: failure with `"not found in database"` (line 256);
* `errOther`: any other failure or exception. -/
inductive FetchOutcome where
  | ok (games_collected : Nat)
  | errSkip
  | errNoGames
  | errNotFound
  | errOther
deriving DecidableEq, Repr

/-- Loop state for one state's historical crawl (lines 103-105), plus the
trace of day indices fetched (day `k` is `today - k`). -/
structure CrawlState where
  days_processed : Nat
  empty_days : Nat
  fetches : List Nat
deriving DecidableEq, Repr

/-- One iteration of `while days_processed < max_days and empty_days_count <
MAX_EMPTY_DAYS` (lines 118-300).  `retry_count` is reset to `0` at the top
of every iteration (line 122) and the `errOther` branches (lines 260-270 and
282-293) only raise it to `1` and sleep — there is no inner loop repeating
the fetch and `empty_days_count` is untouched there — so each date is
fetched exactly once and the retry machinery has no observable effect;
the `success` flag (line 123) is likewise never consulted.  The date then
advances regardless of the outcome (lines 299-300). -/
def crawlStep (fetch : Nat → FetchOutcome) (s : CrawlState) : CrawlState :=
  let s := { s with fetches := s.fetches ++ [s.days_processed] }
  let s :=
    match fetch s.days_processed with
    | .ok n =>
      if n > 0 then { s with empty_days := 0 }
      else { s with empty_days := s.empty_days + 1 }
    | .errSkip => { s with empty_days := s.empty_days + 1 }
    | .errNoGames =>
      -- Lines 246-254: an empty *first* day forces the loop to exit.
      if s.days_processed == 0 then { s with empty_days := MAX_EMPTY_DAYS }
      else { s with empty_days := s.empty_days + 1 }
    | .errNotFound => { s with empty_days := MAX_EMPTY_DAYS }
    | .errOther => s
  { s with days_processed := s.days_processed + 1 }

/-- The while loop, driven by fuel; `days_processed` grows by one per
iteration, so `max_days` fuel always outlasts the loop condition. -/
def crawlGo (fetch : Nat → FetchOutcome) (max_days : Nat) :
    Nat → CrawlState → CrawlState
  | 0, s => s
  | fuel + 1, s =>
    if s.days_processed < max_days ∧ s.empty_days < MAX_EMPTY_DAYS then
      crawlGo fetch max_days fuel (crawlStep fetch s)
    else s

/-- The per-state date loop of `collect_historical_data` (lines 99-300),
with the collection call abstracted as the `fetch` outcome function. -/
def collect_historical_data (fetch : Nat → FetchOutcome) (max_days : Nat) :
    CrawlState :=
  crawlGo fetch max_days max_days ⟨0, 0, []⟩

/-! ## Shared-connection lifecycle (`app/services/game_collector_service.py`,
lines 41-92) -/

/-- The class-level shared state: whether `_shared_connection` is non-null
and the `_batch_collection_active` flag — a plain boolean in the source. -/
structure ConnMgr where
  shared_conn : Bool
  batch_active : Bool
deriving DecidableEq, Repr

/-- `_get_shared_connection` (lines 47-57): creates the connection when
absent. -/
def get_shared_connection (s : ConnMgr) : ConnMgr :=
  { s with shared_conn := true }

/-- `_release_shared_connection` (lines 59-71): closes only when no batch is
active. -/
def release_shared_connection (s : ConnMgr) : ConnMgr :=
  if !s.batch_active && s.shared_conn then { s with shared_conn := false }
  else s

/-- `start_batch_collection` (lines 73-78): sets the flag. -/
def start_batch_collection (s : ConnMgr) : ConnMgr :=
  { s with batch_active := true }

/-- `end_batch_collection` (lines 80-92): clears the flag and closes the
shared connection if present. -/
def end_batch_collection (_s : ConnMgr) : ConnMgr :=
  { batch_active := false, shared_conn := false }

/-! ## Multi-state game-name classifier
(`app/services/game_collector_service.py`) -/

/-- Lines 36-39: the fixed list of cross-jurisdiction game names. -/
def MULTI_STATE_GAMES : List String :=
  ["Powerball", "Mega Millions", "Lucky for Life", "Cash4Life",
   "Lotto America", "2by2", "Tri-State"]

/-- Python `needle in hay` on character lists. -/
def charsStartWith : List Char → List Char → Bool
  | [], _ => true
  | _ :: _, [] => false
  | a :: as, b :: bs => a == b && charsStartWith as bs

def charsContain (needle : List Char) : List Char → Bool
  | [] => needle.isEmpty
  | c :: t => charsStartWith needle (c :: t) || charsContain needle t

/-- ASCII `str.lower()` — sufficient for the ASCII game names involved. -/
def lowerChar (c : Char) : Char :=
  if 65 ≤ c.toNat ∧ c.toNat ≤ 90 then Char.ofNat (c.toNat + 32) else c

def lowerChars (s : String) : List Char := s.toList.map lowerChar

/-- Lines 275-279: `mg_name.lower() in game_name.lower()` over
`MULTI_STATE_GAMES` — the name-based multi-state classification used when
*creating* games in `collect_games_by_state`.  (This is the classification
the claim attributes to `save_many`; compare `save_many_is_multi_state`.) -/
def is_name_multi_state (game_name : String) : Bool :=
  MULTI_STATE_GAMES.any (fun mg => charsContain (lowerChars mg) (lowerChars game_name))

/-! ## Identity keys and mutable-value projections -/

/-- The identity key of a stored row: `(game_id, draw_date,
draw_time-or-null)`. -/
def rowKey (row : StoredRow) : RegKey := (row.game_id, row.draw_date, row.draw_time)

/-- The identity key of a queued insert tuple. -/
def itemKey (it : InsertRow) : RegKey := (it.game_id, it.draw_date, it.draw_time)

/-- The identity key of an incoming record, when its `game_id` is
resolved. -/
def grKey (gr : GameResult) : Option RegKey :=
  gr.game_id.map (fun g => (g, gr.draw_date, gr.draw_time))

/-- The identity keys appearing in a batch. -/
def batchKeys (batch : List GameResult) : List RegKey := batch.filterMap grKey

/-- The number of distinct identity keys in a batch. -/
def distinctKeyCount (batch : List GameResult) : Nat :=
  (batchKeys batch).toFinset.card

/-- The seven mutable fields of a stored row, in the comparison order of
`save_many` (numbers, jackpot, next_draw_date, next_draw_time, next_jackpot,
timezone, special_number). -/
def rowVals (row : StoredRow) :
    String × Option String × Option Nat × Option Nat × Option String ×
      Option String × Option String :=
  (row.numbers, row.jackpot, row.next_draw_date, row.next_draw_time,
   row.next_jackpot, row.timezone, row.special_number)

/-- The seven mutable fields of an incoming record. -/
def grVals (gr : GameResult) :
    String × Option String × Option Nat × Option Nat × Option String ×
      Option String × Option String :=
  (gr.numbers, gr.jackpot, gr.next_draw_date, gr.next_draw_time,
   gr.next_jackpot, gr.timezone, gr.special_number)

/-- The seven mutable fields of a queued insert tuple. -/
def itemVals (it : InsertRow) :
    String × Option String × Option Nat × Option Nat × Option String ×
      Option String × Option String :=
  (it.numbers, it.jackpot, it.next_draw_date, it.next_draw_time,
   it.next_jackpot, it.timezone, it.special_number)

/-- The insert tuples a batch yields when the storage lookup is empty: one
per record with a resolved `game_id`, in batch order. -/
def batchItems (batch : List GameResult) : List InsertRow :=
  batch.filterMap (fun gr => gr.game_id.map (fun g => insertRowOf g gr))

/-- Value-consistency of a batch of queued inserts: tuples of the same
`(game_id, draw_date)` carry the same seven mutable values. -/
def valsAgree (items : List InsertRow) : Prop :=
  ∀ p, p ∈ items → ∀ q, q ∈ items → p.game_id = q.game_id →
    p.draw_date = q.draw_date → itemVals p = itemVals q

/-- Invariant of the insert loop of `save_many` run over empty storage with
no queued updates: everything is committed, row identity keys are unique
and are exactly the keys of the processed insert tuples, every row carries
the key and values of a processed tuple, and the counters tally. -/
def execInv (processed : List InsertRow) (s : ExecState) : Prop :=
  s.conn.committed = s.conn.view ∧
  (s.conn.view.map rowKey).Nodup ∧
  (∀ k, k ∈ s.conn.view.map rowKey ↔ k ∈ processed.map itemKey) ∧
  (∀ row, row ∈ s.conn.view → ∃ it, it ∈ processed ∧
    rowKey row = itemKey it ∧ rowVals row = itemVals it) ∧
  s.updated = 0 ∧ s.insert_errors = 0 ∧
  s.inserted = s.conn.view.length ∧
  s.inserted + s.unchanged = processed.length

/-! # Helper lemmas -/

theorem multi_state_clauses_eq_nil (batch : List GameResult) :
    multi_state_clauses batch = [] := by
  show batch.foldl _ [] = []
  suffices h : ∀ (l : List GameResult) (acc : List (Nat × Nat)),
      l.foldl (fun acc gr =>
        match gr.game_id with
        | none => acc
        | some g =>
          if save_many_is_multi_state gr then acc ++ [(g, gr.draw_date)]
          else acc) acc = acc by
    exact h batch []
  intro l
  induction l with
  | nil => intro acc; rfl
  | cons hd tl ih =>
    intro acc
    rw [List.foldl_cons]
    rcases h : hd.game_id with _ | g <;> simp only [h] <;> exact ih acc

theorem rowMatchesItem_iff (it : InsertRow) (row : StoredRow) :
    rowMatchesItem it row = true ↔ rowKey row = itemKey it := by
  simp [rowMatchesItem, rowKey, itemKey, Prod.ext_iff, Bool.and_eq_true,
    beq_iff_eq, and_assoc]

theorem keyConflict_iff (view : List StoredRow) (it : InsertRow) :
    keyConflict view it = true ↔ itemKey it ∈ view.map rowKey := by
  simp [keyConflict, List.any_eq_true, List.mem_map, rowMatchesItem_iff]

theorem rowKey_rowOfInsert (it : InsertRow) (rid now : Nat) :
    rowKey (rowOfInsert it rid now) = itemKey it := rfl

theorem rowVals_rowOfInsert (it : InsertRow) (rid now : Nat) :
    rowVals (rowOfInsert it rid now) = itemVals it := rfl

theorem insFieldsDiffer_eq_false_iff (ex : StoredRow) (it : InsertRow) :
    insFieldsDiffer ex it = false ↔ rowVals ex = itemVals it := by
  simp [insFieldsDiffer, rowVals, itemVals, Prod.ext_iff, Bool.or_eq_false_iff,
    bne_eq_false_iff_eq, and_assoc]
  tauto

theorem fieldsDiffer_eq_false_iff (ex : StoredRow) (gr : GameResult) :
    fieldsDiffer ex gr = false ↔ rowVals ex = grVals gr := by
  simp [fieldsDiffer, rowVals, grVals, Prod.ext_iff, Bool.or_eq_false_iff,
    bne_eq_false_iff_eq, and_assoc]

theorem decide_from_empty (batch : List GameResult) (acc : Pending) :
    batch.foldl (decideRecord [] []) acc =
      ⟨acc.to_insert ++ batch.filterMap
        (fun gr => gr.game_id.map (fun g => insertRowOf g gr)),
       acc.to_update, acc.unchanged⟩ := by
  induction batch generalizing acc with
  | nil => simp
  | cons hd tl ih =>
    rw [List.foldl_cons, ih]
    rcases h : hd.game_id with _ | g
    · simp [decideRecord, h]
    · simp [decideRecord, h, dictFind, save_many_is_multi_state]

theorem lookupEntriesStep_sub (d : List (RegKey × StoredRow))
    (row : StoredRow) : d ⊆ lookupEntriesStep d row := by
  intro x hx
  unfold lookupEntriesStep
  cases row.draw_time <;> simp [hx]

theorem mem_of_mem_lookupEntriesStep (d : List (RegKey × StoredRow))
    (row : StoredRow) (kv : RegKey × StoredRow)
    (h : kv ∈ lookupEntriesStep d row) :
    kv ∈ d ∨ (kv.2 = row ∧ (kv.1 = (row.game_id, row.draw_date, none) ∨
      kv.1 = (row.game_id, row.draw_date, row.draw_time))) := by
  unfold lookupEntriesStep at h
  rcases hdt : row.draw_time with _ | t <;> rw [hdt] at h <;>
    simp only [List.mem_append, List.mem_singleton] at h
  · rcases h with h | h
    · exact Or.inl h
    · right
      constructor
      · rw [h]
      · left; rw [h]
  · rcases h with (h | h) | h
    · exact Or.inl h
    · right
      constructor
      · rw [h]
      · left; rw [h]
    · right
      subst h
      exact ⟨rfl, Or.inr rfl⟩

theorem primary_mem_lookupEntriesStep (d : List (RegKey × StoredRow))
    (row : StoredRow) :
    ((row.game_id, row.draw_date, none), row) ∈ lookupEntriesStep d row := by
  unfold lookupEntriesStep
  cases row.draw_time <;> simp

theorem timekey_mem_lookupEntriesStep (d : List (RegKey × StoredRow))
    (row : StoredRow) (t : Nat) (h : row.draw_time = some t) :
    ((row.game_id, row.draw_date, some t), row) ∈ lookupEntriesStep d row := by
  unfold lookupEntriesStep
  rw [h]
  simp

theorem foldl_entries_sub (rows : List StoredRow) :
    ∀ acc, acc ⊆ rows.foldl lookupEntriesStep acc := by
  induction rows with
  | nil => intro acc; simp
  | cons hd tl ih =>
    intro acc
    rw [List.foldl_cons]
    exact fun x hx => ih _ (lookupEntriesStep_sub acc hd hx)

theorem mem_foldl_entries (rows : List StoredRow) :
    ∀ acc kv, kv ∈ rows.foldl lookupEntriesStep acc →
      kv ∈ acc ∨ ∃ row, row ∈ rows ∧ kv.2 = row ∧
        (kv.1 = (row.game_id, row.draw_date, none) ∨
          kv.1 = (row.game_id, row.draw_date, row.draw_time)) := by
  induction rows with
  | nil => intro acc kv h; exact Or.inl h
  | cons hd tl ih =>
    intro acc kv h
    rw [List.foldl_cons] at h
    rcases ih _ kv h with h' | ⟨row, hrow, hkv⟩
    · rcases mem_of_mem_lookupEntriesStep acc hd kv h' with h'' | h''
      · exact Or.inl h''
      · exact Or.inr ⟨hd, List.mem_cons_self hd tl, h''⟩
    · exact Or.inr ⟨row, List.mem_cons_of_mem hd hrow, hkv⟩

theorem primary_mem_build_aux (rows : List StoredRow) :
    ∀ (acc : List (RegKey × StoredRow)) (row : StoredRow), row ∈ rows →
      ((row.game_id, row.draw_date, none), row) ∈
        rows.foldl lookupEntriesStep acc := by
  induction rows with
  | nil => intro acc row h; cases h
  | cons hd tl ih =>
    intro acc row h
    rw [List.foldl_cons]
    rcases List.mem_cons.mp h with rfl | h'
    · exact foldl_entries_sub tl _ (primary_mem_lookupEntriesStep acc row)
    · exact ih _ row h'

theorem primary_mem_build (rows : List StoredRow) (row : StoredRow)
    (h : row ∈ rows) :
    ((row.game_id, row.draw_date, none), row) ∈ buildRegularLookup rows :=
  primary_mem_build_aux rows [] row h

theorem timekey_mem_build_aux (rows : List StoredRow) :
    ∀ (acc : List (RegKey × StoredRow)) (row : StoredRow) (t : Nat),
      row ∈ rows → row.draw_time = some t →
      ((row.game_id, row.draw_date, some t), row) ∈
        rows.foldl lookupEntriesStep acc := by
  induction rows with
  | nil => intro acc row t h; cases h
  | cons hd tl ih =>
    intro acc row t h ht
    rw [List.foldl_cons]
    rcases List.mem_cons.mp h with rfl | h'
    · exact foldl_entries_sub tl _ (timekey_mem_lookupEntriesStep acc row t ht)
    · exact ih _ row t h' ht

theorem timekey_mem_build (rows : List StoredRow) (row : StoredRow) (t : Nat)
    (h : row ∈ rows) (ht : row.draw_time = some t) :
    ((row.game_id, row.draw_date, some t), row) ∈ buildRegularLookup rows :=
  timekey_mem_build_aux rows [] row t h ht

theorem mem_build (rows : List StoredRow) (kv : RegKey × StoredRow)
    (h : kv ∈ buildRegularLookup rows) :
    ∃ row, row ∈ rows ∧ kv.2 = row ∧
      (kv.1 = (row.game_id, row.draw_date, none) ∨
        kv.1 = (row.game_id, row.draw_date, row.draw_time)) := by
  rcases mem_foldl_entries rows [] kv h with h' | h'
  · cases h'
  · exact h'

theorem dictFind_mem (d : List (RegKey × StoredRow)) (k : RegKey)
    (v : StoredRow) (h : dictFind d k = some v) : (k, v) ∈ d := by
  unfold dictFind at h
  rcases ho : d.reverse.find? (fun p => p.1 == k) with _ | p
  · rw [ho] at h; cases h
  · rw [ho] at h
    have hp := List.find?_some ho
    have hm : p ∈ d.reverse := List.mem_of_find?_eq_some ho
    have hk : p.1 = k := by simpa using hp
    have hv : p.2 = v := by simpa using h
    have hpkv : p = (k, v) := Prod.ext hk hv
    rw [← hpkv]
    exact List.mem_reverse.mp hm

theorem dictFind_isSome_of_mem (d : List (RegKey × StoredRow)) (k : RegKey)
    (v0 : StoredRow) (h : (k, v0) ∈ d) : ∃ v, dictFind d k = some v := by
  unfold dictFind
  rcases ho : d.reverse.find? (fun p => p.1 == k) with _ | p
  · exfalso
    rw [List.find?_eq_none] at ho
    exact ho (k, v0) (List.mem_reverse.mpr h) (by simp)
  · exact ⟨p.2, by rw [ho]; rfl⟩

theorem applyUpdate_frame (now : Nat) (rows : List StoredRow) (u : UpdateRow)
    (h : ∀ x, x ∈ rows → x.id ≠ u.row_id) : applyUpdate now rows u = rows := by
  unfold applyUpdate
  rw [List.map_congr_left, List.map_id]
  intro x hx
  have hb : (x.id == u.row_id) = false := beq_eq_false_iff_ne.mpr (h x hx)
  simp [hb]

theorem crawlGo_stop (fetch : Nat → FetchOutcome) (max_days fuel : Nat)
    (s : CrawlState) (h : ¬ s.empty_days < MAX_EMPTY_DAYS) :
    crawlGo fetch max_days fuel s = s := by
  cases fuel with
  | zero => rfl
  | succ n =>
    have hc : ¬ (s.days_processed < max_days ∧ s.empty_days < MAX_EMPTY_DAYS) :=
      fun hc => h hc.2
    simp [crawlGo, hc]

/-! # Claim theorems -/

/-- C10: `save_many` applied to an empty record list returns
`{"success": True, "inserted": 0, "updated": 0, "unchanged": 0, "total": 0}`
immediately, without reaching `get_pg_connection()` and leaving the stored
state untouched (lines 134-135 run before any connection or cursor use). -/
theorem save_many_empty_batch_noop (conn : Conn) (now : Nat) :
    save_many conn now [] =
      { conn := conn,
        stats := { success := true, inserted := 0, updated := 0,
                   unchanged := 0, insert_errors := 0, total := 0 },
        got_connection := false } := rfl

/-- C3, counterexample: the claim says a record of a game named
`"Powerball"` is classified multi-jurisdiction inside `save_many` (name
matches the fixed list), but `save_many` classifies every record — this one
included — as jurisdiction-scoped: `is_multi_state` is the hardcoded
constant `False` (lines 214 and 308), while the name-based classifier of
the collector service does match `"Powerball"`. -/
theorem save_many_powerball_classified_regular_cex :
    save_many_is_multi_state
        ⟨some 1, some 1, 10, some 30, none, "5,9,12,27,41", some "100M",
          none, none, none, some "8"⟩ = false ∧
      is_name_multi_state ("Powerball") = true := by
  exact ⟨rfl, by decide⟩

/-- C3, amended: inside `save_many` every record is classified
jurisdiction-scoped, uniformly — the per-record guard (line 308) and the
lookup-clause guard (line 214) are the same hardcoded `False`, so the
multi-state WHERE clauses are empty for every batch and the name-based
classification (which survives only in `GameCollectorService`) is never
consulted. -/
theorem save_many_classifies_all_jurisdiction_scoped
    (batch : List GameResult) (gr : GameResult) :
    save_many_is_multi_state gr = false ∧ multi_state_clauses batch = [] :=
  ⟨rfl, multi_state_clauses_eq_nil batch⟩

/-- C9, counterexample: acquire the shared connection, call
`start_batch_collection` twice (begin nested), then `end_batch_collection`
once.  Begins (2) exceed ends (1), yet the shared connection is closed —
`_batch_collection_active` is a plain boolean, not a reference count, so
the claim's "the shared database connection is not closed" fails here. -/
theorem nested_batch_single_end_closes_cex :
    (end_batch_collection (start_batch_collection (start_batch_collection
        (get_shared_connection ⟨false, false⟩)))).shared_conn = false := rfl

/-- C9, amended: `start_batch_collection` is idempotent only in the sense
that repeated calls leave the state unchanged (the flag is a boolean), and
any single `end_batch_collection` — outermost or not — clears the flag and
closes the shared connection. -/
theorem batch_flag_boolean_lifecycle (s : ConnMgr) :
    start_batch_collection (start_batch_collection s) =
        start_batch_collection s ∧
      (end_batch_collection (start_batch_collection s)).shared_conn = false ∧
      (end_batch_collection s).shared_conn = false :=
  ⟨rfl, rfl, rfl⟩

/-- C4: batch execution with conflict recovery, on a batch holding a
queued update (record `r0` against pre-existing row `row0`), an insert
(`r1`), an insert that collides on the identity key (`r2`, same key as
`r1` — invisible to the batch lookup, caught by the unique key at write
time), and an unrelated sibling insert (`r3`).  The updates run as the one
batched write before the inserts; each successful insert commits
individually; `r2`'s duplicate-key failure is rolled back, re-read by
`(game_id, draw_date, draw_time-or-null)`, and converted to an update when
any of the seven mutable fields differs and to unchanged otherwise; no
error is surfaced (`success` stays true, `insert_errors = 0`) and the
sibling insert `r3` still lands. -/
theorem insert_conflict_recovered_and_siblings_continue
    (g0 g1 g3 d0 d1 d3 rid0 nid now t1 : Nat)
    (dt0 dt3 : Option Nat)
    (tzR : Option String) (numsR : String) (jpR : Option String)
    (nddR ndtR : Option Nat) (njpR snR : Option String) (colR : Nat)
    (sA sB sC sD : Option Nat)
    (tzA : Option String) (numsA : String) (jpA : Option String)
    (nddA ndtA : Option Nat) (njpA snA : Option String)
    (tzB : Option String) (numsB : String) (jpB : Option String)
    (nddB ndtB : Option Nat) (njpB snB : Option String)
    (tzC : Option String) (numsC : String) (jpC : Option String)
    (nddC ndtC : Option Nat) (njpC snC : Option String)
    (tzD : Option String) (numsD : String) (jpD : Option String)
    (nddD ndtD : Option Nat) (njpD snD : Option String)
    (row0 : StoredRow) (r0 r1 r2 r3 : GameResult)
    (hrow0 : row0 = ⟨rid0, g0, d0, dt0, tzR, numsR, jpR, nddR, ndtR, njpR,
      snR, colR⟩)
    (hr0 : r0 = ⟨some g0, sA, d0, dt0, tzA, numsA, jpA, nddA, ndtA, njpA, snA⟩)
    (hr1 : r1 = ⟨some g1, sB, d1, some t1, tzB, numsB, jpB, nddB, ndtB, njpB,
      snB⟩)
    (hr2 : r2 = ⟨some g1, sC, d1, some t1, tzC, numsC, jpC, nddC, ndtC, njpC,
      snC⟩)
    (hr3 : r3 = ⟨some g3, sD, d3, dt3, tzD, numsD, jpD, nddD, ndtD, njpD, snD⟩)
    (hg10 : g1 ≠ g0) (hg30 : g3 ≠ g0) (hg31 : g3 ≠ g1)
    (hrid : rid0 ≠ nid) (hnums : numsR ≠ numsA) :
    (save_many ⟨[row0], [row0], nid⟩ now [r0, r1, r2, r3]).stats =
        ⟨true, 2,
          if insFieldsDiffer ⟨nid, g1, d1, some t1, tzB, numsB, jpB, nddB,
              ndtB, njpB, snB, now⟩
            ⟨g1, d1, some t1, tzC, numsC, jpC, nddC, ndtC, njpC, snC⟩
          then 2 else 1,
          if insFieldsDiffer ⟨nid, g1, d1, some t1, tzB, numsB, jpB, nddB,
              ndtB, njpB, snB, now⟩
            ⟨g1, d1, some t1, tzC, numsC, jpC, nddC, ndtC, njpC, snC⟩
          then 0 else 1,
          0, 4⟩ ∧
      (save_many ⟨[row0], [row0], nid⟩ now [r0, r1, r2, r3]).conn.view =
        [⟨rid0, g0, d0, dt0, tzA, numsA, jpA, nddA, ndtA, njpA, snA, now⟩,
         if insFieldsDiffer ⟨nid, g1, d1, some t1, tzB, numsB, jpB, nddB,
              ndtB, njpB, snB, now⟩
            ⟨g1, d1, some t1, tzC, numsC, jpC, nddC, ndtC, njpC, snC⟩
         then ⟨nid, g1, d1, some t1, tzC, numsC, jpC, nddC, ndtC, njpC, snC,
           now⟩
         else ⟨nid, g1, d1, some t1, tzB, numsB, jpB, nddB, ndtB, njpB, snB,
           now⟩,
         ⟨nid + 1, g3, d3, dt3, tzD, numsD, jpD, nddD, ndtD, njpD, snD,
           now⟩] := by
  subst hrow0 hr0 hr1 hr2 hr3
  have b01 : (g0 == g1) = false := beq_eq_false_iff_ne.mpr (fun h => hg10 h.symm)
  have b10 : (g1 == g0) = false := beq_eq_false_iff_ne.mpr hg10
  have b03 : (g0 == g3) = false := beq_eq_false_iff_ne.mpr (fun h => hg30 h.symm)
  have b30 : (g3 == g0) = false := beq_eq_false_iff_ne.mpr hg30
  have b13 : (g1 == g3) = false := beq_eq_false_iff_ne.mpr (fun h => hg31 h.symm)
  have b31 : (g3 == g1) = false := beq_eq_false_iff_ne.mpr hg31
  have brid : (rid0 == nid) = false := beq_eq_false_iff_ne.mpr hrid
  have brid2 : (nid == rid0) = false :=
    beq_eq_false_iff_ne.mpr (fun h => hrid h.symm)
  have n01 : g0 ≠ g1 := fun h => hg10 h.symm
  have n03 : g0 ≠ g3 := fun h => hg30 h.symm
  have n13 : g1 ≠ g3 := fun h => hg31 h.symm
  have nrid : nid ≠ rid0 := fun h => hrid h.symm
  cases hm : insFieldsDiffer ⟨nid, g1, d1, some t1, tzB, numsB, jpB, nddB,
      ndtB, njpB, snB, now⟩
      ⟨g1, d1, some t1, tzC, numsC, jpC, nddC, ndtC, njpC, snC⟩ <;>
    cases dt0 <;> cases dt3 <;>
      refine ⟨?_, ?_⟩ <;>
        simp [save_many, decideRecord, dictFind, buildRegularLookup,
          lookupEntriesStep, fetchRegular, matchesBatch, fieldsDiffer,
          execUpdates, execInsert, keyConflict, rowMatchesItem, insertRowOf,
          rowOfInsert, updateRowOf, updateOfInsert, applyUpdate,
          save_many_is_multi_state, hm, b01, b10, b03, b30, b13, b31, brid,
          brid2, hnums, hg10, hg30, hg31, hrid, n01, n03, n13, nrid]

/-- C4, witness: game 2's row gets the batched update, game 1's second
record collides and is recovered as an update (its numbers differ), game
3's insert proceeds. -/
theorem insert_conflict_recovered_and_siblings_continue_witness :
    (1 : Nat) ≠ 2 ∧ (3 : Nat) ≠ 2 ∧ (3 : Nat) ≠ 1 ∧ (7 : Nat) ≠ 8 ∧
      ("Z" : String) ≠ "Z2" ∧
      ((save_many ⟨[⟨7, 2, 11, none, none, "Z", none, none, none, none, none,
          50⟩], [⟨7, 2, 11, none, none, "Z", none, none, none, none, none,
          50⟩], 8⟩ 100
        [⟨some 2, some 1, 11, none, none, "Z2", none, none, none, none, none⟩,
         ⟨some 1, some 1, 10, some 30, none, "A", none, none, none, none,
           none⟩,
         ⟨some 1, some 1, 10, some 30, none, "B", none, none, none, none,
           none⟩,
         ⟨some 3, some 1, 12, none, none, "C", none, none, none, none,
           none⟩]).stats =
        ⟨true, 2,
          if insFieldsDiffer ⟨8, 1, 10, some 30, none, "A", none, none, none,
              none, none, 100⟩
            ⟨1, 10, some 30, none, "B", none, none, none, none, none⟩
          then 2 else 1,
          if insFieldsDiffer ⟨8, 1, 10, some 30, none, "A", none, none, none,
              none, none, 100⟩
            ⟨1, 10, some 30, none, "B", none, none, none, none, none⟩
          then 0 else 1,
          0, 4⟩) :=
  ⟨by decide, by decide, by decide, by decide, by decide,
    (insert_conflict_recovered_and_siblings_continue 2 1 3 11 10 12 7 8 100
      30 none none none "Z" none none none none none 50 (some 1) (some 1)
      (some 1) (some 1) none "Z2" none none none none none none "A" none
      none none none none none "B" none none none none none none "C" none
      none none none none _ _ _ _ _ rfl rfl rfl rfl rfl (by decide)
      (by decide) (by decide) (by decide) (by decide)).1⟩

/-- C7, counterexample: a jurisdiction whose every probed date yields a
*successful* collection with zero records (`result["success"]` true,
`games_collected == 0`, line 229) is fetched `max_days = 3` times, not
once: the immediate first-day termination (lines 246-254) only runs in the
`"No games found"` failure branch, so the claim's "zero extracted records
on the first date terminates after exactly one fetch" is false here. -/
theorem empty_first_day_success_continues_cex :
    (collect_historical_data (fun _ => FetchOutcome.ok 0) 3).fetches =
        [0, 1, 2] ∧
      (collect_historical_data (fun _ => FetchOutcome.ok 0) 3).fetches.length
        ≠ 1 := by
  exact ⟨by decide, by decide⟩

/-- C7, amended: a jurisdiction whose first probed date fails with the
`"No games found"` message (the page has no game sections) terminates after
exactly one fetch, for any fetch behaviour on later dates and any
`max_days ≥ 1`: lines 249-251 force `empty_days_count = MAX_EMPTY_DAYS`
and the loop condition fails on the next check. -/
theorem no_games_first_day_single_fetch (fetch : Nat → FetchOutcome)
    (max_days : Nat) (h0 : fetch 0 = FetchOutcome.errNoGames)
    (h1 : 1 ≤ max_days) :
    (collect_historical_data fetch max_days).fetches = [0] := by
  obtain ⟨m, rfl⟩ : ∃ m, max_days = m + 1 := ⟨max_days - 1, by omega⟩
  show (crawlGo fetch (m + 1) (m + 1) ⟨0, 0, []⟩).fetches = [0]
  have hstep : crawlStep fetch ⟨0, 0, []⟩ = ⟨1, MAX_EMPTY_DAYS, [0]⟩ := by
    simp [crawlStep, h0]
  have hcond : (0 : Nat) < m + 1 ∧ (0 : Nat) < MAX_EMPTY_DAYS := by
    constructor <;> simp [MAX_EMPTY_DAYS]
  rw [crawlGo, if_pos hcond, hstep,
    crawlGo_stop fetch (m + 1) m ⟨1, MAX_EMPTY_DAYS, [0]⟩
      (fun h => lt_irrefl _ h)]

/-- C7, witness for the amended theorem at a concrete input: every fetch
returns `"No games found"` and `max_days = 3`. -/
theorem no_games_first_day_single_fetch_witness :
    ((fun _ => FetchOutcome.errNoGames) 0 = FetchOutcome.errNoGames) ∧
      1 ≤ 3 ∧
      (collect_historical_data (fun _ => FetchOutcome.errNoGames) 3).fetches
        = [0] :=
  ⟨rfl, by decide,
    no_games_first_day_single_fetch (fun _ => FetchOutcome.errNoGames) 3 rfl
      (by decide)⟩

/-- C8: the claim says an error that is neither skippable, no-data, nor
unknown-jurisdiction is retried on the same date up to `MAX_RETRIES`
attempts and then downgraded to an empty day; in the code `retry_count` is
reset at the top of every date iteration (line 122) and the retry branch
(lines 260-270) has no inner loop, so each date is fetched exactly once —
with every fetch failing that way, the trace over 3 days is one fetch per
date, date 0 is attempted once (not `MAX_RETRIES = 3` times), and
`empty_days_count` is never advanced. -/
theorem other_error_single_attempt_per_date :
    (collect_historical_data (fun _ => FetchOutcome.errOther) 3).fetches =
        [0, 1, 2] ∧
      (collect_historical_data (fun _ => FetchOutcome.errOther)
          3).fetches.count 0 = 1 ∧
      MAX_RETRIES = 3 ∧
      (collect_historical_data (fun _ => FetchOutcome.errOther)
          3).empty_days = 0 := by
  refine ⟨by decide, by decide, rfl, by decide⟩

/-- C1, counterexample: a batch of two records with *distinct* identity
keys — `(game 1, date 10, no time, numbers "A")` and `(game 1, date 10,
time 30, numbers "B")` — upserted twice from empty storage.  The first run
inserts both rows, but on the second run the no-time record falls back to
the `(game_id, draw_date)` primary key, which the dict build (lines
237-257) left pointing at the time-keyed row; its numbers differ, so the
second run reports `updated = 1`, not the zero updates the claim
demands. -/
theorem second_run_not_idempotent_cex :
    (save_many (save_many emptyConn 100
        [⟨some 1, some 1, 10, none, none, "A", none, none, none, none, none⟩,
         ⟨some 1, some 1, 10, some 30, none, "B", none, none, none, none,
           none⟩]).conn 200
        [⟨some 1, some 1, 10, none, none, "A", none, none, none, none, none⟩,
         ⟨some 1, some 1, 10, some 30, none, "B", none, none, none, none,
           none⟩]).stats.updated = 1 := by decide

/-- C2, counterexample: two records of the same game and draw date with
identical `numbers` and `jackpot` but different `state_id` *and* different
`timezone`, upserted in successive `save_many` calls.  Only one stored row
exists afterwards, but the second record is reported as an update
(`timezone` is among the compared mutable fields, line 478), not as the
`unchanged` the claim requires. -/
theorem multi_jurisdiction_second_pass_updates_cex :
    (save_many (save_many emptyConn 100
        [⟨some 5, some 1, 10, some 30, some "-0500", "N", some "J", none,
          none, none, none⟩]).conn 200
        [⟨some 5, some 2, 10, some 30, some "-0800", "N", some "J", none,
          none, none, none⟩]).stats.unchanged = 0 ∧
      (save_many (save_many emptyConn 100
        [⟨some 5, some 1, 10, some 30, some "-0500", "N", some "J", none,
          none, none, none⟩]).conn 200
        [⟨some 5, some 2, 10, some 30, some "-0800", "N", some "J", none,
          none, none, none⟩]).stats.updated = 1 := by
  exact ⟨by decide, by decide⟩

/-- C2, amended: two records of the same game and draw date, identical in
`draw_time` and in all seven mutable fields and differing only in
`state_id` (jurisdiction of origin), upserted by two successive `save_many`
calls from empty storage: the second call reports `unchanged = 1`, no
insert and no update, and exactly one row exists for that
`(game_id, draw_date)`. -/
theorem multi_jurisdiction_value_identical_unchanged
    (g : Nat) (s1 s2 : Option Nat) (d : Nat) (dt : Option Nat)
    (tz : Option String) (nums : String) (jp : Option String)
    (nddX ndtX : Option Nat) (njpX snX : Option String) (now1 now2 : Nat)
    (_hs : s1 ≠ s2) :
    let r1 : GameResult := ⟨some g, s1, d, dt, tz, nums, jp, nddX, ndtX, njpX, snX⟩
    let r2 : GameResult := ⟨some g, s2, d, dt, tz, nums, jp, nddX, ndtX, njpX, snX⟩
    let o2 := save_many (save_many emptyConn now1 [r1]).conn now2 [r2]
    o2.stats.inserted = 0 ∧ o2.stats.updated = 0 ∧ o2.stats.unchanged = 1 ∧
      (o2.conn.view.filter
        (fun row => row.game_id == g && row.draw_date == d)).length = 1 := by
  cases dt with
  | none =>
    simp [save_many, decideRecord, dictFind, buildRegularLookup,
      lookupEntriesStep, fetchRegular, matchesBatch, fieldsDiffer, execUpdates,
      execInsert, keyConflict, rowMatchesItem, insertRowOf, rowOfInsert,
      updateRowOf, emptyConn, save_many_is_multi_state]
  | some t =>
    simp [save_many, decideRecord, dictFind, buildRegularLookup,
      lookupEntriesStep, fetchRegular, matchesBatch, fieldsDiffer, execUpdates,
      execInsert, keyConflict, rowMatchesItem, insertRowOf, rowOfInsert,
      updateRowOf, emptyConn, save_many_is_multi_state]

/-- C2, witness for the amended theorem: a Powerball-style draw observed
from jurisdiction 1 and again, value-identical, from jurisdiction 2. -/
theorem multi_jurisdiction_value_identical_unchanged_witness :
    (some 1 : Option Nat) ≠ some 2 ∧
      (let r1 : GameResult := ⟨some 5, some 1, 10, some 30, some "-0500",
        "[5,9,12]", some "100M", none, none, none, some "8"⟩
      let r2 : GameResult := ⟨some 5, some 2, 10, some 30, some "-0500",
        "[5,9,12]", some "100M", none, none, none, some "8"⟩
      let o2 := save_many (save_many emptyConn 100 [r1]).conn 200 [r2]
      o2.stats.inserted = 0 ∧ o2.stats.updated = 0 ∧ o2.stats.unchanged = 1 ∧
        (o2.conn.view.filter
          (fun row => row.game_id == 5 && row.draw_date == 10)).length = 1) :=
  ⟨by decide,
    multi_jurisdiction_value_identical_unchanged 5 (some 1) (some 2) 10
      (some 30) (some "-0500") "[5,9,12]" (some "100M") none none none
      (some "8") 100 200 (by decide)⟩

/-- C5, counterexample: two records of a jurisdiction-scoped game with the
same `(game_id, draw_date)` and different non-null `draw_time`s (20 vs 25),
upserted in successive `save_many` calls.  The claim demands two distinct
stored rows; instead the second call misses the time key, falls back to the
`(game_id, draw_date)` primary key (lines 443-446), matches the first row,
reports `unchanged`, and leaves a single stored row. -/
theorem different_draw_time_sequential_merges_cex :
    (save_many (save_many emptyConn 100
        [⟨some 1, some 1, 10, some 20, none, "A", none, none, none, none,
          none⟩]).conn 200
        [⟨some 1, some 1, 10, some 25, none, "A", none, none, none, none,
          none⟩]).conn.view.length = 1 ∧
      (save_many (save_many emptyConn 100
        [⟨some 1, some 1, 10, some 20, none, "A", none, none, none, none,
          none⟩]).conn 200
        [⟨some 1, some 1, 10, some 25, none, "A", none, none, none, none,
          none⟩]).stats.unchanged = 1 := by
  exact ⟨by decide, by decide⟩

/-- C5, amended: two records of a jurisdiction-scoped game with the same
`(game_id, draw_date)` and different non-null `draw_time`s, upserted in the
*same* `save_many` batch from empty storage, produce two distinct stored
rows — one per `(game_id, draw_date, draw_time)` identity key. -/
theorem different_draw_times_same_batch_two_rows
    (g : Nat) (s1 s2 : Option Nat) (d t1 t2 : Nat)
    (tz1 tz2 : Option String) (nums1 nums2 : String) (jp1 jp2 : Option String)
    (ndd1 ndd2 ndt1 ndt2 : Option Nat) (njp1 njp2 sn1 sn2 : Option String)
    (now : Nat) (ht : t1 ≠ t2) :
    let r1 : GameResult := ⟨some g, s1, d, some t1, tz1, nums1, jp1, ndd1,
      ndt1, njp1, sn1⟩
    let r2 : GameResult := ⟨some g, s2, d, some t2, tz2, nums2, jp2, ndd2,
      ndt2, njp2, sn2⟩
    let o := save_many emptyConn now [r1, r2]
    o.stats.inserted = 2 ∧
      o.conn.view.map rowKey = [(g, d, some t1), (g, d, some t2)] := by
  have ht' : (t1 == t2) = false := beq_eq_false_iff_ne.mpr ht
  simp [save_many, decideRecord, dictFind, buildRegularLookup,
    lookupEntriesStep, fetchRegular, matchesBatch, fieldsDiffer, execUpdates,
    execInsert, keyConflict, rowMatchesItem, insertRowOf, rowOfInsert,
    updateRowOf, emptyConn, save_many_is_multi_state, rowKey, ht']

/-- C5, witness for the amended theorem: a midday and an evening draw of
the same game and date in one batch. -/
theorem different_draw_times_same_batch_two_rows_witness :
    (20 : Nat) ≠ 25 ∧
      (let r1 : GameResult := ⟨some 1, some 1, 10, some 20, none, "A", none,
        none, none, none, none⟩
      let r2 : GameResult := ⟨some 1, some 1, 10, some 25, none, "B", none,
        none, none, none, none⟩
      let o := save_many emptyConn 100 [r1, r2]
      o.stats.inserted = 2 ∧
        o.conn.view.map rowKey = [(1, 10, some 20), (1, 10, some 25)]) :=
  ⟨by decide,
    different_draw_times_same_batch_two_rows 1 (some 1) (some 1) 10 20 25
      none none "A" "B" none none none none none none none none none none
      100 (by decide)⟩

/-- C6, counterexample: the claim fails when another row shares the
matched row's `(game_id, draw_date)`.  One batch from empty storage stores
`(game 1, date 10, NULL, "A")` and `(game 1, date 10, 19:00, "B")`; an
incoming `(game 1, date 10, NULL)` record with numbers `"B"` matches the
NULL-time row by identity key with differing numbers, so the claim demands
exactly one update of that row — but the dict's `(game_id, draw_date)`
primary entry (line 255) was overwritten by the later-fetched time-keyed
row, the fallback (lines 443-446) compares against it instead, and
`save_many` reports `unchanged = 1, updated = 0`, leaving the NULL-time row
stale at `"A"` with its old `collected_at`. -/
theorem update_on_change_fallback_redirect_cex :
    (save_many (save_many emptyConn 100
        [⟨some 1, some 1, 10, none, none, "A", none, none, none, none, none⟩,
         ⟨some 1, some 1, 10, some 19, none, "B", none, none, none, none,
           none⟩]).conn 200
        [⟨some 1, some 1, 10, none, none, "B", none, none, none, none,
          none⟩]).stats.updated = 0 ∧
      (save_many (save_many emptyConn 100
        [⟨some 1, some 1, 10, none, none, "A", none, none, none, none, none⟩,
         ⟨some 1, some 1, 10, some 19, none, "B", none, none, none, none,
           none⟩]).conn 200
        [⟨some 1, some 1, 10, none, none, "B", none, none, none, none,
          none⟩]).stats.unchanged = 1 ∧
      (save_many (save_many emptyConn 100
        [⟨some 1, some 1, 10, none, none, "A", none, none, none, none, none⟩,
         ⟨some 1, some 1, 10, some 19, none, "B", none, none, none, none,
           none⟩]).conn 200
        [⟨some 1, some 1, 10, none, none, "B", none, none, none, none,
          none⟩]).conn.view =
        [⟨0, 1, 10, none, none, "A", none, none, none, none, none, 100⟩,
         ⟨1, 1, 10, some 19, none, "B", none, none, none, none, none, 100⟩]
    := by
  exact ⟨by decide, by decide, by decide⟩

/-- C6, amended: a record whose `(game_id, draw_date, draw_time)` identity
key matches an existing stored row that is the *only* stored row for its
`(game_id, draw_date)` (and whose id no other row shares) and whose
`numbers` differs re-runs the upsert with exactly one update and a frame
condition: the matched row keeps its `id` and its `game_id`, `draw_date`,
`draw_time`; the seven mutable fields take the incoming values;
`collected_at` becomes the current timestamp; every other stored row is
untouched.  (Without the uniqueness premise the `(game_id, draw_date)`
fallback can redirect the comparison to a different-time row — see the
counterexample.) -/
theorem update_on_change_frame (g : Nat) (sid : Option Nat) (d : Nat)
    (dt : Option Nat) (tz : Option String) (nums : String) (jp : Option String)
    (nddX ndtX : Option Nat) (njpX snX : Option String)
    (rid : Nat) (tzE : Option String) (numsE : String) (jpE : Option String)
    (nddE ndtE : Option Nat) (njpE snE : Option String) (colE : Nat)
    (pre post cm : List StoredRow) (nid now : Nat)
    (row : StoredRow) (r : GameResult)
    (hrow : row = ⟨rid, g, d, dt, tzE, numsE, jpE, nddE, ndtE, njpE, snE, colE⟩)
    (hr : r = ⟨some g, sid, d, dt, tz, nums, jp, nddX, ndtX, njpX, snX⟩)
    (hnums : numsE ≠ nums)
    (hother : ∀ x, x ∈ pre ++ post → ¬(x.game_id = g ∧ x.draw_date = d))
    (hid : ∀ x, x ∈ pre ++ post → x.id ≠ rid) :
    (save_many ⟨cm, pre ++ row :: post, nid⟩ now [r]).stats =
        ⟨true, 0, 1, 0, 0, 1⟩ ∧
      (save_many ⟨cm, pre ++ row :: post, nid⟩ now [r]).conn.view =
        pre ++ ⟨rid, g, d, dt, tz, nums, jp, nddX, ndtX, njpX, snX, now⟩ ::
          post := by
  have hfilside : ∀ x, x ∈ pre ++ post → matchesBatch [r] x = false := by
    intro x hx
    cases hb : matchesBatch [r] x with
    | false => rfl
    | true =>
      exfalso
      rw [hr] at hb
      simp only [matchesBatch, List.any_cons, List.any_nil, Bool.or_false,
        Bool.and_eq_true, beq_iff_eq, Option.some.injEq] at hb
      exact hother x hx ⟨hb.1.symm, hb.2.symm⟩
  have hfetch : fetchRegular (pre ++ row :: post) [r] = [row] := by
    unfold fetchRegular
    rw [List.filter_append]
    rw [List.filter_eq_nil_iff.mpr
      (fun a ha => by simp [hfilside a (List.mem_append_left post ha)])]
    rw [List.filter_cons]
    rw [if_pos (by simp [matchesBatch, hr, hrow])]
    rw [List.filter_eq_nil_iff.mpr
      (fun a ha => by simp [hfilside a (List.mem_append_right pre ha)])]
    rfl
  have happ : applyUpdate now (pre ++ row :: post)
      ⟨nums, tz, jp, nddX, ndtX, njpX, snX, rid⟩ =
      pre ++ ⟨rid, g, d, dt, tz, nums, jp, nddX, ndtX, njpX, snX, now⟩ ::
        post := by
    show List.map _ _ = _
    rw [List.map_append, List.map_cons]
    have h1 : List.map _ pre = pre :=
      applyUpdate_frame now pre ⟨nums, tz, jp, nddX, ndtX, njpX, snX, rid⟩
        (fun x hx => hid x (List.mem_append_left post hx))
    have h2 : List.map _ post = post :=
      applyUpdate_frame now post ⟨nums, tz, jp, nddX, ndtX, njpX, snX, rid⟩
        (fun x hx => hid x (List.mem_append_right pre hx))
    rw [h1, h2]
    congr 1
    congr 1
    rw [if_pos (by simp [hrow])]
    rw [hrow]
  subst hrow hr
  cases dt with
  | none =>
    refine ⟨?_, ?_⟩ <;>
      simp [save_many, hfetch, decideRecord, dictFind, buildRegularLookup,
        lookupEntriesStep, fieldsDiffer, execUpdates, execInsert, keyConflict,
        updateRowOf, save_many_is_multi_state, hnums, happ]
  | some t =>
    refine ⟨?_, ?_⟩ <;>
      simp [save_many, hfetch, decideRecord, dictFind, buildRegularLookup,
        lookupEntriesStep, fieldsDiffer, execUpdates, execInsert, keyConflict,
        updateRowOf, save_many_is_multi_state, hnums, happ]

/-- C6, witness for the amended theorem: a one-row store (plus one
unrelated row) gets its numbers corrected in place. -/
theorem update_on_change_frame_witness :
    ("[1,2,3]" : String) ≠ "[1,2,4]" ∧
      (∀ x, x ∈ [(⟨9, 4, 11, none, none, "Z", none, none, none, none, none,
          50⟩ : StoredRow)] ++ [] → ¬(x.game_id = 1 ∧ x.draw_date = 10)) ∧
      (∀ x, x ∈ [(⟨9, 4, 11, none, none, "Z", none, none, none, none, none,
          50⟩ : StoredRow)] ++ [] → x.id ≠ 3) ∧
      ((save_many ⟨[], [⟨9, 4, 11, none, none, "Z", none, none, none, none,
          none, 50⟩,
          ⟨3, 1, 10, some 30, none, "[1,2,3]", none, none, none, none, none,
            50⟩], 7⟩ 100
        [⟨some 1, some 1, 10, some 30, none, "[1,2,4]", none, none, none,
          none, none⟩]).stats = ⟨true, 0, 1, 0, 0, 1⟩ ∧
       (save_many ⟨[], [⟨9, 4, 11, none, none, "Z", none, none, none, none,
          none, 50⟩,
          ⟨3, 1, 10, some 30, none, "[1,2,3]", none, none, none, none, none,
            50⟩], 7⟩ 100
        [⟨some 1, some 1, 10, some 30, none, "[1,2,4]", none, none, none,
          none, none⟩]).conn.view =
        [⟨9, 4, 11, none, none, "Z", none, none, none, none, none, 50⟩] ++
          ⟨3, 1, 10, some 30, none, "[1,2,4]", none, none, none, none, none,
            100⟩ :: []) :=
  ⟨by decide, by decide, by decide,
    update_on_change_frame 1 (some 1) 10 (some 30) none "[1,2,4]" none none
      none none none 3 none "[1,2,3]" none none none none none 50
      [⟨9, 4, 11, none, none, "Z", none, none, none, none, none, 50⟩] [] []
      7 100 _ _ rfl rfl (by decide) (by decide) (by decide)⟩
/-! ## Insert-loop invariant for the idempotence proof -/

theorem execInsert_conflict_unchanged (now : Nat) (s : ExecState)
    (it : InsertRow) (hcv : s.conn.committed = s.conn.view)
    (hc : keyConflict s.conn.view it = true)
    (hvals : ∀ row, row ∈ s.conn.view → rowKey row = itemKey it →
      rowVals row = itemVals it) :
    execInsert now s it = { s with unchanged := s.unchanged + 1 } := by
  obtain ⟨⟨cm, vw, nid⟩, ins, upd, unch, errs⟩ := s
  dsimp only at hcv hc hvals ⊢
  subst hcv
  have hsome : (cm.find? (rowMatchesItem it)).isSome := by
    rw [List.find?_isSome]
    rcases List.any_eq_true.mp hc with ⟨row, hrow, hmatch⟩
    exact ⟨row, hrow, hmatch⟩
  rcases Option.isSome_iff_exists.mp hsome with ⟨ex, hfind⟩
  have hkey : rowKey ex = itemKey it :=
    (rowMatchesItem_iff it ex).mp (List.find?_some hfind)
  have hmem : ex ∈ cm := List.mem_of_find?_eq_some hfind
  have hdif : insFieldsDiffer ex it = false :=
    (insFieldsDiffer_eq_false_iff ex it).mpr (hvals ex hmem hkey)
  unfold execInsert
  rw [if_pos hc]
  dsimp only
  rw [hfind]
  dsimp only
  rw [hdif]
  rw [if_neg (by simp)]

theorem execInsert_fresh (now : Nat) (s : ExecState) (it : InsertRow)
    (hc : keyConflict s.conn.view it = false) :
    execInsert now s it =
      { s with
        conn := ⟨s.conn.view ++ [rowOfInsert it s.conn.next_id now],
                 s.conn.view ++ [rowOfInsert it s.conn.next_id now],
                 s.conn.next_id + 1⟩,
        inserted := s.inserted + 1 } := by
  unfold execInsert
  rw [if_neg (by rw [hc]; exact Bool.false_ne_true)]

theorem execInv_step (now : Nat) (items processed : List InsertRow)
    (s : ExecState) (it : InsertRow)
    (hval : valsAgree items) (hproc : ∀ x, x ∈ processed → x ∈ items)
    (hit : it ∈ items) (hinv : execInv processed s) :
    execInv (processed ++ [it]) (execInsert now s it) := by
  obtain ⟨hcv, hnodup, hkeys, hrows, hupd, herr, hins, hcount⟩ := hinv
  cases hc : keyConflict s.conn.view it with
  | true =>
    have hvals : ∀ row, row ∈ s.conn.view → rowKey row = itemKey it →
        rowVals row = itemVals it := by
      intro row hrow hkey
      rcases hrows row hrow with ⟨p, hp, hkp, hvp⟩
      have hpk : itemKey p = itemKey it := hkp.symm.trans hkey
      simp only [itemKey, Prod.mk.injEq] at hpk
      have hv := hval p (hproc p hp) it hit hpk.1 hpk.2.1
      exact hvp.trans hv
    rw [execInsert_conflict_unchanged now s it hcv hc hvals]
    refine ⟨hcv, hnodup, ?_, ?_, hupd, herr, hins, ?_⟩
    · intro k
      rw [List.map_append]
      simp only [List.mem_append, List.map_cons, List.map_nil,
        List.mem_singleton]
      constructor
      · intro hk
        exact Or.inl ((hkeys k).mp hk)
      · rintro (hk | hk)
        · exact (hkeys k).mpr hk
        · rw [hk]
          exact (keyConflict_iff s.conn.view it).mp hc
    · intro row hrow
      rcases hrows row hrow with ⟨p, hp, h⟩
      exact ⟨p, List.mem_append_left _ hp, h⟩
    · dsimp only
      rw [List.length_append, List.length_singleton]
      omega
  | false =>
    rw [execInsert_fresh now s it hc]
    have hnotin : itemKey it ∉ s.conn.view.map rowKey := by
      intro hmem
      rw [← keyConflict_iff s.conn.view it] at hmem
      rw [hc] at hmem
      cases hmem
    refine ⟨rfl, ?_, ?_, ?_, hupd, herr, ?_, ?_⟩
    · rw [List.map_append, List.map_cons, List.map_nil,
        rowKey_rowOfInsert, List.nodup_append]
      exact ⟨hnodup, List.nodup_singleton _,
        List.disjoint_singleton.mpr hnotin⟩
    · intro k
      rw [List.map_append, List.map_append, List.map_cons, List.map_cons,
        List.map_nil, List.map_nil, rowKey_rowOfInsert]
      simp only [List.mem_append, List.mem_singleton]
      constructor
      · rintro (hk | hk)
        · exact Or.inl ((hkeys k).mp hk)
        · exact Or.inr hk
      · rintro (hk | hk)
        · exact Or.inl ((hkeys k).mpr hk)
        · exact Or.inr hk
    · intro row hrow
      rcases List.mem_append.mp hrow with hrow' | hrow'
      · rcases hrows row hrow' with ⟨p, hp, h⟩
        exact ⟨p, List.mem_append_left _ hp, h⟩
      · rw [List.mem_singleton] at hrow'
        refine ⟨it, List.mem_append_right _ (List.mem_singleton.mpr rfl), ?_, ?_⟩
        · rw [hrow']
          exact rowKey_rowOfInsert it s.conn.next_id now
        · rw [hrow']
          exact rowVals_rowOfInsert it s.conn.next_id now
    · dsimp only
      rw [List.length_append, List.length_singleton]
      omega
    · dsimp only
      rw [List.length_append, List.length_singleton]
      omega

theorem execInv_fold (now : Nat) (items : List InsertRow)
    (hval : valsAgree items) :
    ∀ (rest processed : List InsertRow) (s : ExecState),
      (∀ x, x ∈ processed → x ∈ items) → (∀ x, x ∈ rest → x ∈ items) →
      execInv processed s →
      execInv (processed ++ rest) (rest.foldl (execInsert now) s) := by
  intro rest
  induction rest with
  | nil =>
    intro processed s hproc _ hinv
    simpa using hinv
  | cons hd tl ih =>
    intro processed s hproc hrest hinv
    rw [List.foldl_cons]
    have hstep := execInv_step now items processed s hd hval hproc
      (hrest hd (List.mem_cons_self hd tl)) hinv
    have hproc' : ∀ x, x ∈ processed ++ [hd] → x ∈ items := by
      intro x hx
      rcases List.mem_append.mp hx with hx' | hx'
      · exact hproc x hx'
      · rw [List.mem_singleton] at hx'
        rw [hx']
        exact hrest hd (List.mem_cons_self hd tl)
    have hrest' : ∀ x, x ∈ tl → x ∈ items := fun x hx =>
      hrest x (List.mem_cons_of_mem hd hx)
    have := ih (processed ++ [hd]) (execInsert now s hd) hproc' hrest' hstep
    rwa [List.append_assoc, List.singleton_append] at this

theorem itemKey_insertRowOf (g : Nat) (gr : GameResult) :
    itemKey (insertRowOf g gr) = (g, gr.draw_date, gr.draw_time) := rfl

theorem itemVals_insertRowOf (g : Nat) (gr : GameResult) :
    itemVals (insertRowOf g gr) = grVals gr := rfl

theorem mem_batchItems (batch : List GameResult) (p : InsertRow)
    (hp : p ∈ batchItems batch) :
    ∃ r g, r ∈ batch ∧ r.game_id = some g ∧ p = insertRowOf g r := by
  rcases List.mem_filterMap.mp hp with ⟨r, hr, hmap⟩
  rcases Option.map_eq_some'.mp hmap with ⟨g, hg, hfg⟩
  exact ⟨r, g, hr, hg, hfg.symm⟩

theorem batchItems_mem_of_mem (batch : List GameResult) (r : GameResult)
    (g : Nat) (hr : r ∈ batch) (hg : r.game_id = some g) :
    insertRowOf g r ∈ batchItems batch := by
  refine List.mem_filterMap.mpr ⟨r, hr, ?_⟩
  rw [hg]
  rfl

theorem batchItems_keys (batch : List GameResult) :
    (batchItems batch).map itemKey = batchKeys batch := by
  unfold batchItems batchKeys grKey
  rw [List.map_filterMap]
  congr 1
  funext gr
  cases gr.game_id <;> rfl

theorem valsAgree_batchItems (batch : List GameResult)
    (H2 : ∀ r, r ∈ batch → ∀ r', r' ∈ batch → r.game_id = r'.game_id →
      r.draw_date = r'.draw_date → grVals r = grVals r') :
    valsAgree (batchItems batch) := by
  intro p hp q hq hg hd
  rcases mem_batchItems batch p hp with ⟨rp, gp, hrp, hgp, hep⟩
  rcases mem_batchItems batch q hq with ⟨rq, gq, hrq, hgq, heq⟩
  subst hep heq
  have hgid : rp.game_id = rq.game_id := by
    rw [hgp, hgq]
    exact congrArg some hg
  have hdd : rp.draw_date = rq.draw_date := hd
  rw [itemVals_insertRowOf, itemVals_insertRowOf]
  exact H2 rp hrp rq hrq hgid hdd

theorem save_many_from_empty (batch : List GameResult) (now1 : Nat)
    (hne : batch ≠ [])
    (H1 : ∀ gr, gr ∈ batch → gr.game_id ≠ none) :
    save_many emptyConn now1 batch =
      ⟨((batchItems batch).foldl (execInsert now1) ⟨emptyConn, 0, 0, 0, 0⟩).conn,
       ⟨true,
        ((batchItems batch).foldl (execInsert now1) ⟨emptyConn, 0, 0, 0, 0⟩).inserted,
        ((batchItems batch).foldl (execInsert now1) ⟨emptyConn, 0, 0, 0, 0⟩).updated,
        ((batchItems batch).foldl (execInsert now1) ⟨emptyConn, 0, 0, 0, 0⟩).unchanged,
        ((batchItems batch).foldl (execInsert now1) ⟨emptyConn, 0, 0, 0, 0⟩).insert_errors,
        ((batchItems batch).foldl (execInsert now1) ⟨emptyConn, 0, 0, 0, 0⟩).inserted +
          ((batchItems batch).foldl (execInsert now1) ⟨emptyConn, 0, 0, 0, 0⟩).updated +
          ((batchItems batch).foldl (execInsert now1) ⟨emptyConn, 0, 0, 0, 0⟩).unchanged⟩,
       true⟩ := by
  have hne' : batch.isEmpty = false := by
    cases batch with
    | nil => exact absurd rfl hne
    | cons hd tl => rfl
  have hgi : (batch.filterMap (fun gr => gr.game_id)).isEmpty = false := by
    cases hb : batch with
    | nil => exact absurd hb hne
    | cons hd tl =>
      have hhd : hd.game_id ≠ none := H1 hd (by rw [hb]; exact List.mem_cons_self hd tl)
      rcases hg : hd.game_id with _ | g
      · exact absurd hg hhd
      · simp [List.filterMap_cons, hg]
  unfold save_many
  rw [if_neg (by rw [hne']; exact Bool.false_ne_true)]
  rw [if_neg (by rw [hgi]; exact Bool.false_ne_true)]
  have hfetch : fetchRegular emptyConn.view batch = [] := rfl
  rw [hfetch]
  have hbuild : buildRegularLookup [] = [] := rfl
  rw [hbuild]
  dsimp only [emptyConn]
  rw [decide_from_empty]
  dsimp only
  rfl

theorem decideRecord_unchanged (lookup : List (RegKey × StoredRow))
    (view : List StoredRow) (acc : Pending) (gr : GameResult) (g : Nat)
    (ex : StoredRow) (hg : gr.game_id = some g)
    (hfind : dictFind lookup (g, gr.draw_date, gr.draw_time) = some ex)
    (hdif : fieldsDiffer ex gr = false) :
    decideRecord lookup view acc gr =
      { acc with unchanged := acc.unchanged + 1 } := by
  unfold decideRecord
  rw [hg]
  simp only [save_many_is_multi_state, Bool.false_eq_true, if_false]
  rcases hdt : gr.draw_time with _ | t
  · rw [hdt] at hfind
    dsimp only
    rw [hfind]
    dsimp only
    rw [hdif]
    rw [if_neg (by simp)]
  · rw [hdt] at hfind
    dsimp only
    rw [hfind]
    dsimp only
    rw [hdif]
    rw [if_neg (by simp)]

theorem decide_all_unchanged (lookup : List (RegKey × StoredRow))
    (view : List StoredRow) :
    ∀ (l : List GameResult) (acc : Pending),
      (∀ gr, gr ∈ l → ∃ g ex, gr.game_id = some g ∧
        dictFind lookup (g, gr.draw_date, gr.draw_time) = some ex ∧
        fieldsDiffer ex gr = false) →
      l.foldl (decideRecord lookup view) acc =
        { acc with unchanged := acc.unchanged + l.length } := by
  intro l
  induction l with
  | nil =>
    intro acc _
    simp
  | cons hd tl ih =>
    intro acc h
    rw [List.foldl_cons]
    rcases h hd (List.mem_cons_self hd tl) with ⟨g, ex, hg, hfind, hdif⟩
    rw [decideRecord_unchanged lookup view acc hd g ex hg hfind hdif]
    rw [ih _ (fun gr hgr => h gr (List.mem_cons_of_mem hd hgr))]
    simp only [List.length_cons]
    congr 1
    omega

theorem save_many_all_unchanged (conn : Conn) (now : Nat)
    (batch : List GameResult) (hne : batch ≠ [])
    (H1 : ∀ gr, gr ∈ batch → gr.game_id ≠ none)
    (hdec : batch.foldl
        (decideRecord (buildRegularLookup (fetchRegular conn.view batch))
          conn.view) ⟨[], [], 0⟩ = ⟨[], [], batch.length⟩) :
    save_many conn now batch =
      ⟨conn, ⟨true, 0, 0, batch.length, 0, 0 + 0 + batch.length⟩, true⟩ := by
  have hne' : batch.isEmpty = false := by
    cases batch with
    | nil => exact absurd rfl hne
    | cons hd tl => rfl
  have hgi : (batch.filterMap (fun gr => gr.game_id)).isEmpty = false := by
    cases hb : batch with
    | nil => exact absurd hb hne
    | cons hd tl =>
      have hhd : hd.game_id ≠ none :=
        H1 hd (by rw [hb]; exact List.mem_cons_self hd tl)
      rcases hg : hd.game_id with _ | g
      · exact absurd hg hhd
      · simp [List.filterMap_cons, hg]
  unfold save_many
  rw [if_neg (by rw [hne']; exact Bool.false_ne_true)]
  rw [if_neg (by rw [hgi]; exact Bool.false_ne_true)]
  dsimp only
  rw [hdec]
  rfl

theorem run2_record_found (batch : List GameResult) (view1 : List StoredRow)
    (H2 : ∀ r, r ∈ batch → ∀ r', r' ∈ batch → r.game_id = r'.game_id →
      r.draw_date = r'.draw_date → grVals r = grVals r')
    (hkeys : ∀ k, k ∈ view1.map rowKey ↔ k ∈ (batchItems batch).map itemKey)
    (hrows : ∀ row, row ∈ view1 → ∃ it, it ∈ batchItems batch ∧
      rowKey row = itemKey it ∧ rowVals row = itemVals it)
    (gr : GameResult) (hgr : gr ∈ batch) (g : Nat) (hg : gr.game_id = some g) :
    ∃ ex, dictFind (buildRegularLookup (fetchRegular view1 batch))
        (g, gr.draw_date, gr.draw_time) = some ex ∧
      fieldsDiffer ex gr = false := by
  have hkmem : ((g, gr.draw_date, gr.draw_time) : RegKey) ∈
      (batchItems batch).map itemKey := by
    refine List.mem_map.mpr ⟨insertRowOf g gr, batchItems_mem_of_mem batch gr g hgr hg, ?_⟩
    exact itemKey_insertRowOf g gr
  rcases List.mem_map.mp ((hkeys _).mpr hkmem) with ⟨row1, hrow1, hkrow1⟩
  have hcomp : row1.game_id = g ∧ row1.draw_date = gr.draw_date ∧
      row1.draw_time = gr.draw_time := by
    have := hkrow1
    simp only [rowKey, Prod.mk.injEq] at this
    exact this
  have hrow1f : row1 ∈ fetchRegular view1 batch := by
    refine List.mem_filter.mpr ⟨hrow1, ?_⟩
    refine List.any_eq_true.mpr ⟨gr, hgr, ?_⟩
    rw [hg, hcomp.1, hcomp.2.1]
    simp
  have hentry : (((g, gr.draw_date, gr.draw_time) : RegKey), row1) ∈
      buildRegularLookup (fetchRegular view1 batch) := by
    rcases hdt : gr.draw_time with _ | t
    · have h1 := primary_mem_build (fetchRegular view1 batch) row1 hrow1f
      rwa [hcomp.1, hcomp.2.1] at h1
    · have hdt1 : row1.draw_time = some t := by rw [hcomp.2.2, hdt]
      have h1 := timekey_mem_build (fetchRegular view1 batch) row1 t hrow1f hdt1
      rwa [hcomp.1, hcomp.2.1] at h1
  rcases dictFind_isSome_of_mem _ _ row1 hentry with ⟨ex, hfind⟩
  refine ⟨ex, hfind, ?_⟩
  rcases mem_build _ _ (dictFind_mem _ _ _ hfind) with ⟨rowx, hrowxf, hex, hkx⟩
  have hxv : rowx.game_id = g ∧ rowx.draw_date = gr.draw_date := by
    rcases hkx with hkx | hkx <;>
      · have := hkx
        simp only [Prod.mk.injEq] at this
        exact ⟨this.1.symm, this.2.1.symm⟩
  have hrowxv : rowx ∈ view1 := List.mem_of_mem_filter hrowxf
  rcases hrows rowx hrowxv with ⟨it, hit, hkit, hvit⟩
  rcases mem_batchItems batch it hit with ⟨r2, g2, hr2, hg2, he2⟩
  have hitk : itemKey it = (g2, r2.draw_date, r2.draw_time) := by
    rw [he2]
    exact itemKey_insertRowOf g2 r2
  have hcomp2 : rowx.game_id = g2 ∧ rowx.draw_date = r2.draw_date := by
    have := hkit.trans hitk
    simp only [rowKey, Prod.mk.injEq] at this
    exact ⟨this.1, this.2.1⟩
  have hr2g : r2.game_id = gr.game_id := by
    rw [hg2, hg]
    exact congrArg some (hcomp2.1.symm.trans hxv.1)
  have hr2d : r2.draw_date = gr.draw_date := hcomp2.2.symm.trans hxv.2
  have hvals : grVals r2 = grVals gr := H2 r2 hr2 gr hgr hr2g hr2d
  refine (fieldsDiffer_eq_false_iff ex gr).mpr ?_
  have hex2 : ex = rowx := hex
  rw [hex2]
  calc rowVals rowx = itemVals it := hvit
    _ = grVals r2 := by rw [he2]; exact itemVals_insertRowOf g2 r2
    _ = grVals gr := hvals

/-- C1, amended: for every batch whose records all carry a resolved
`game_id` and in which any two records with the same `(game_id, draw_date)`
agree on all seven mutable fields, running `save_many` from empty storage
and then a second time with the identical record set reports zero inserted
and zero updated on the second run, classifies every record unchanged,
leaves the connection state untouched, and stores exactly one row per
distinct `(game_id, draw_date, draw_time-or-null)` identity key of the
batch. -/
theorem save_many_second_run_idempotent (batch : List GameResult)
    (now1 now2 : Nat)
    (H1 : ∀ gr, gr ∈ batch → gr.game_id ≠ none)
    (H2 : ∀ r, r ∈ batch → ∀ r', r' ∈ batch → r.game_id = r'.game_id →
      r.draw_date = r'.draw_date → grVals r = grVals r') :
    (save_many (save_many emptyConn now1 batch).conn now2 batch).stats.inserted
        = 0 ∧
      (save_many (save_many emptyConn now1 batch).conn now2
        batch).stats.updated = 0 ∧
      (save_many (save_many emptyConn now1 batch).conn now2
        batch).stats.unchanged = batch.length ∧
      (save_many (save_many emptyConn now1 batch).conn now2 batch).conn =
        (save_many emptyConn now1 batch).conn ∧
      (save_many emptyConn now1 batch).conn.view.length =
        distinctKeyCount batch := by
  by_cases hne : batch = []
  · subst hne
    exact ⟨rfl, rfl, rfl, rfl, rfl⟩
  · have hrun1 := save_many_from_empty batch now1 hne H1
    have hval := valsAgree_batchItems batch H2
    have hinv0 : execInv [] ⟨emptyConn, 0, 0, 0, 0⟩ := by
      refine ⟨rfl, by simp [emptyConn], ?_, ?_, rfl, rfl, rfl, rfl⟩
      · intro k
        simp [emptyConn]
      · intro row hrow
        simp [emptyConn] at hrow
    have hinv := execInv_fold now1 (batchItems batch) hval (batchItems batch)
      [] ⟨emptyConn, 0, 0, 0, 0⟩ (fun x hx => by cases hx) (fun x hx => hx)
      hinv0
    rw [List.nil_append] at hinv
    obtain ⟨hcv, hnodup, hkeys, hrows, hupd, herr, hins, hcount⟩ := hinv
    have hdecrec : ∀ gr, gr ∈ batch → ∃ g ex, gr.game_id = some g ∧
        dictFind (buildRegularLookup (fetchRegular
          ((batchItems batch).foldl (execInsert now1)
            ⟨emptyConn, 0, 0, 0, 0⟩).conn.view batch))
          (g, gr.draw_date, gr.draw_time) = some ex ∧
        fieldsDiffer ex gr = false := by
      intro gr hgr
      rcases hg : gr.game_id with _ | g
      · exact absurd hg (H1 gr hgr)
      · rcases run2_record_found batch _ H2 hkeys hrows gr hgr g hg with
          ⟨ex, hfind, hdif⟩
        exact ⟨g, ex, rfl, hfind, hdif⟩
    have hdec : batch.foldl (decideRecord (buildRegularLookup (fetchRegular
        ((batchItems batch).foldl (execInsert now1)
          ⟨emptyConn, 0, 0, 0, 0⟩).conn.view batch))
        ((batchItems batch).foldl (execInsert now1)
          ⟨emptyConn, 0, 0, 0, 0⟩).conn.view) ⟨[], [], 0⟩ =
        ⟨[], [], batch.length⟩ := by
      rw [decide_all_unchanged _ _ batch ⟨[], [], 0⟩ hdecrec]
      show Pending.mk [] [] (0 + batch.length) = Pending.mk [] [] batch.length
      rw [Nat.zero_add]
    have hrun2 := save_many_all_unchanged
      ((batchItems batch).foldl (execInsert now1)
        ⟨emptyConn, 0, 0, 0, 0⟩).conn now2 batch hne H1 hdec
    have hlen : ((batchItems batch).foldl (execInsert now1)
        ⟨emptyConn, 0, 0, 0, 0⟩).conn.view.length = distinctKeyCount batch := by
      have h1 := List.toFinset_card_of_nodup hnodup
      have h3 : (((batchItems batch).foldl (execInsert now1)
          ⟨emptyConn, 0, 0, 0, 0⟩).conn.view.map rowKey).toFinset =
          (batchKeys batch).toFinset := by
        apply Finset.ext
        intro k
        simp only [List.mem_toFinset]
        rw [← batchItems_keys batch]
        exact hkeys k
      rw [← List.length_map _ rowKey, ← h1, h3]
      rfl
    rw [hrun1]
    refine ⟨?_, ?_, ?_, ?_, hlen⟩ <;> rw [show ((⟨((batchItems batch).foldl
      (execInsert now1) ⟨emptyConn, 0, 0, 0, 0⟩).conn, ⟨true, _, _, _, _, _⟩,
      true⟩ : SaveOutcome)).conn = ((batchItems batch).foldl (execInsert now1)
      ⟨emptyConn, 0, 0, 0, 0⟩).conn from rfl, hrun2]

/-- C1, witness for the amended theorem: a two-record batch (two games,
distinct keys, consistent values) saved twice. -/
theorem save_many_second_run_idempotent_witness :
    (∀ gr, gr ∈ [(⟨some 1, some 1, 10, some 20, none, "A", none, none, none,
        none, none⟩ : GameResult),
      ⟨some 2, some 1, 10, some 25, none, "B", none, none, none, none,
        none⟩] → gr.game_id ≠ none) ∧
      (∀ r, r ∈ [(⟨some 1, some 1, 10, some 20, none, "A", none, none, none,
          none, none⟩ : GameResult),
        ⟨some 2, some 1, 10, some 25, none, "B", none, none, none, none,
          none⟩] → ∀ r', r' ∈ [(⟨some 1, some 1, 10, some 20, none, "A",
          none, none, none, none, none⟩ : GameResult),
        ⟨some 2, some 1, 10, some 25, none, "B", none, none, none, none,
          none⟩] → r.game_id = r'.game_id → r.draw_date = r'.draw_date →
          grVals r = grVals r') ∧
      ((save_many (save_many emptyConn 100 [(⟨some 1, some 1, 10, some 20,
          none, "A", none, none, none, none, none⟩ : GameResult),
        ⟨some 2, some 1, 10, some 25, none, "B", none, none, none, none,
          none⟩]).conn 200 [(⟨some 1, some 1, 10, some 20, none, "A", none,
          none, none, none, none⟩ : GameResult),
        ⟨some 2, some 1, 10, some 25, none, "B", none, none, none, none,
          none⟩]).stats.inserted = 0 ∧
       (save_many (save_many emptyConn 100 [(⟨some 1, some 1, 10, some 20,
          none, "A", none, none, none, none, none⟩ : GameResult),
        ⟨some 2, some 1, 10, some 25, none, "B", none, none, none, none,
          none⟩]).conn 200 [(⟨some 1, some 1, 10, some 20, none, "A", none,
          none, none, none, none⟩ : GameResult),
        ⟨some 2, some 1, 10, some 25, none, "B", none, none, none, none,
          none⟩]).stats.updated = 0 ∧
       (save_many (save_many emptyConn 100 [(⟨some 1, some 1, 10, some 20,
          none, "A", none, none, none, none, none⟩ : GameResult),
        ⟨some 2, some 1, 10, some 25, none, "B", none, none, none, none,
          none⟩]).conn 200 [(⟨some 1, some 1, 10, some 20, none, "A", none,
          none, none, none, none⟩ : GameResult),
        ⟨some 2, some 1, 10, some 25, none, "B", none, none, none, none,
          none⟩]).stats.unchanged = 2 ∧
       (save_many emptyConn 100 [(⟨some 1, some 1, 10, some 20, none, "A",
          none, none, none, none, none⟩ : GameResult),
        ⟨some 2, some 1, 10, some 25, none, "B", none, none, none, none,
          none⟩]).conn.view.length = distinctKeyCount
          [(⟨some 1, some 1, 10, some 20, none, "A", none, none, none, none,
            none⟩ : GameResult),
          ⟨some 2, some 1, 10, some 25, none, "B", none, none, none, none,
            none⟩]) := by
  have hH2 : ∀ r, r ∈ [(⟨some 1, some 1, 10, some 20, none, "A", none, none,
      none, none, none⟩ : GameResult),
      ⟨some 2, some 1, 10, some 25, none, "B", none, none, none, none,
        none⟩] → ∀ r', r' ∈ [(⟨some 1, some 1, 10, some 20, none, "A", none,
      none, none, none, none⟩ : GameResult),
      ⟨some 2, some 1, 10, some 25, none, "B", none, none, none, none,
        none⟩] → r.game_id = r'.game_id → r.draw_date = r'.draw_date →
      grVals r = grVals r' := by
    intro r hr r' hr' hg hd
    fin_cases hr <;> fin_cases hr' <;> simp_all
  refine ⟨by decide, hH2, ?_⟩
  have h := save_many_second_run_idempotent
    [(⟨some 1, some 1, 10, some 20, none, "A", none, none, none, none,
      none⟩ : GameResult),
     ⟨some 2, some 1, 10, some 25, none, "B", none, none, none, none, none⟩]
    100 200 (by decide) hH2
  exact ⟨h.1, h.2.1, h.2.2.1, h.2.2.2.2⟩
